import Mathlib

/-!
Shallow embedding of the pfSense MWAN DynDNS reconciler
(`pdns_dyndns.py`) and the gateway watcher (`gateway_watcher.py`).

Python dictionaries are modelled as association lists whose lookup
returns the *last* binding (later assignments override earlier ones,
as in Python), sets as lists compared up to membership, machine
integers as `Int`, and Python float division `latency_us / 1000` as
exact division in `ℚ`.  Fallible operations (subprocess calls, file
reads, the remote PATCH) are modelled with `Except`/`Option` inputs
supplied by an environment record, one field per external data source.
-/

namespace MwanDdns

/-- Python `dict.get`: association-list lookup returning the last binding
for a key, `none` if absent. -/
def dget {α : Type} (d : List (String × α)) (k : String) : Option α :=
  d.foldl (fun acc p => if p.1 = k then some p.2 else acc) none

/-- Python `set(a) == set(b)` on lists of strings. -/
def setEq (a b : List String) : Bool :=
  decide (∀ x ∈ a, x ∈ b) && decide (∀ x ∈ b, x ∈ a)

/-- Per-gateway monitoring thresholds parsed from `config.xml`
(`latencyhigh` in ms, `losshigh` in percent). -/
structure GatewayThresholds where
  latencyhigh : Int
  losshigh : Int
deriving DecidableEq, Inhabited

/-- One parsed dpinger sample: latency in microseconds (`parts[1]`) and
loss percentage (`parts[3]`). -/
structure GatewaySample where
  latencyUs : Int
  lossPct : Int
deriving DecidableEq, Inhabited

inductive GatewayStatus where
  | online
  | down
deriving DecidableEq, Inhabited

/-- `thresholds.get(name, {})` followed by the per-field defaults
`.get(latencyhigh, 500)` / `.get(losshigh, 20)`; stored entries
always carry both fields, so the record-level default is equivalent. -/
def lookupThresholds (thresholds : List (String × GatewayThresholds))
    (name : String) : GatewayThresholds :=
  (dget thresholds name).getD ⟨500, 20⟩

/-- Gateway classification of `pdns_dyndns.py` (`get_gateway_statuses`,
lines 119-126): the sample is accepted only when the loss field is
exactly the string 0 (`parts[3] == "0"`), and then
`(live_latency_us / 1000) < latency_high_ms and live_loss_pct < loss_high_pct`
must hold.  The division comparison is written in its exact integer form
`latencyUs < 1000 * latencyhigh`; `latency_div_1000_lt_iff` below proves
it equal to the rational division comparison. -/
def pfsenseClassify (thr : GatewayThresholds) (s : GatewaySample) : GatewayStatus :=
  if s.lossPct = 0 ∧
      (s.latencyUs < 1000 * thr.latencyhigh ∧ s.lossPct < thr.losshigh) then
    .online
  else
    .down

/-- Gateway classification of `gateway_watcher.py` (`get_gateway_statuses`,
lines 59-70): threshold comparison only, no zero-loss gate; the latency
comparison is in the same exact integer form. -/
def watcherClassify (thr : GatewayThresholds) (s : GatewaySample) : GatewayStatus :=
  if s.latencyUs < 1000 * thr.latencyhigh ∧ s.lossPct < thr.losshigh then
    .online
  else
    .down

/-- `PfSensePlatform.get_gateway_statuses`: the raw input is the list of
dpinger sockets as `(gateway name, parsed sample)`; a socket whose
contents cannot be read or parsed yields `none` and the gateway is
`down`; a failing socket glob (`raw = none`) yields the empty map. -/
def get_gateway_statuses (thresholds : List (String × GatewayThresholds))
    (raw : Option (List (String × Option GatewaySample))) :
    List (String × GatewayStatus) :=
  match raw with
  | none => []
  | some socks =>
    socks.map (fun s =>
      (s.1, match s.2 with
        | none => .down
        | some sample => pfsenseClassify (lookupThresholds thresholds s.1) sample))

/-- `gateway_watcher.get_gateway_statuses`, same shape but with the
watcher's threshold-only classification. -/
def watcher_get_gateway_statuses (thresholds : List (String × GatewayThresholds))
    (raw : Option (List (String × Option GatewaySample))) :
    List (String × GatewayStatus) :=
  match raw with
  | none => []
  | some socks =>
    socks.map (fun s =>
      (s.1, match s.2 with
        | none => .down
        | some sample => watcherClassify (lookupThresholds thresholds s.1) sample))

/-- One interface block of regex-parsed `/sbin/ifconfig` output: the
interface name from the header line, the `inet` matches, and the
`inet6` matches (already stripped of their `%zone` suffix). -/
structure IfaceBlock where
  name : String
  inet4 : List String
  inet6 : List String
deriving DecidableEq, Inhabited

/-- Python `s.startswith(pre)`, at character level. -/
def strStarts (s pre : String) : Bool :=
  pre.data.isPrefixOf s.data

/-- Python `s.split('.')`, at character level. -/
def splitDot : List Char → List (List Char)
  | [] => [[]]
  | c :: cs =>
    if c = '.' then [] :: splitDot cs
    else
      match splitDot cs with
      | [] => [[c]]
      | h :: t => (c :: h) :: t

/-- Python `int(s)` on a non-empty all-digit string, `none` otherwise
(the regex guarantees all-digit octets at the call sites). -/
def parseNat (cs : List Char) : Option Nat :=
  if cs ≠ [] ∧ cs.all (fun c => c.isDigit) then
    some (cs.foldl (fun n c => 10 * n + (c.toNat - 48)) 0)
  else none

/-- The private/link-local IPv4 filter of `get_public_ipv4_addresses`:
`127.`, `169.254.`, `10.`, `192.168.` prefixes and `172.16/12`
(`172 <= octet0 <= 172 and 16 <= octet1 <= 31`). -/
def isPrivateIPv4 (ip : String) : Bool :=
  if strStarts ip "127." || strStarts ip "169.254." then true
  else if strStarts ip "10." || strStarts ip "192.168." then true
  else
    match splitDot ip.data with
    | o0 :: o1 :: _ =>
      match parseNat o0, parseNat o1 with
      | some a, some b => decide (172 ≤ a ∧ a ≤ 172 ∧ 16 ≤ b ∧ b ≤ 31)
      | _, _ => false
    | _ => false

/-- The non-public IPv6 filter of `get_public_ipv6_addresses`:
`fe80`/`fc`/`fd` prefixes and the literals `::1`, `::`, `::10`. -/
def isNonPublicIPv6 (ip : String) : Bool :=
  strStarts ip "fe80" || strStarts ip "fc" || strStarts ip "fd" ||
    ip = "::1" || ip = "::" || ip = "::10"

/-- Should an interface be considered, per
`if physical_interfaces and iface not in physical_interfaces: continue`:
an empty allowlist admits every interface. -/
def ifaceAllowed (allowed : List String) (iface : String) : Bool :=
  allowed.isEmpty || allowed.contains iface

/-- `PfSensePlatform.get_public_ipv4_addresses`.  The `ifconfig`
subprocess result is the input; the function body has no exception
handler, so a failing subprocess propagates as an error. -/
def get_public_ipv4_addresses (raw : Except String (List IfaceBlock))
    (allowed : List String) : Except String (List String) :=
  raw.map (fun blocks =>
    (blocks.filter (fun b => ifaceAllowed allowed b.name)).flatMap
      (fun b => b.inet4.filter (fun ip => !isPrivateIPv4 ip)))

/-- `PfSensePlatform.get_public_ipv6_addresses`; no exception handler. -/
def get_public_ipv6_addresses (raw : Except String (List IfaceBlock))
    (allowed : List String) : Except String (List String) :=
  raw.map (fun blocks =>
    (blocks.filter (fun b => ifaceAllowed allowed b.name)).flatMap
      (fun b => b.inet6.filter (fun ip => !isNonPublicIPv6 ip)))

/-- `PfSensePlatform.get_ip_to_physical_interface_map`: every `inet` and
`inet6` address of every interface maps to its interface name; no
exception handler, so a failing `ifconfig` propagates as an error. -/
def get_ip_to_physical_interface_map (raw : Except String (List IfaceBlock)) :
    Except String (List (String × String)) :=
  raw.map (fun blocks =>
    blocks.flatMap (fun b => (b.inet4 ++ b.inet6).map (fun ip => (ip, b.name))))

/-- `get_gateway_monitoring_thresholds`: the whole `config.xml` parse is
wrapped in `try/except`, so a failing parse (`raw = none`) degrades to
the empty map. -/
def get_gateway_monitoring_thresholds
    (raw : Option (List (String × GatewayThresholds))) :
    List (String × GatewayThresholds) :=
  raw.getD []

/-- `get_gateway_interface_map`: `try/except` around the parse, empty on
failure. -/
def get_gateway_interface_map (raw : Option (List (String × String))) :
    List (String × String) :=
  raw.getD []

/-- `get_physical_to_logical_interface_map`: `try/except` around the
parse, empty on failure. -/
def get_physical_to_logical_interface_map (raw : Option (List (String × String))) :
    List (String × String) :=
  raw.getD []

/-- `get_dyndns_ids`: `try/except` around the parse, empty on failure. -/
def get_dyndns_ids (raw : Option (List (String × String))) :
    List (String × String) :=
  raw.getD []

/-- The dict comprehension `{v: k for k, v in m.items()}`. -/
def invertMap (m : List (String × String)) : List (String × String) :=
  m.map (fun p => (p.2, p.1))

/-- The persisted JSON state `{ "ipv4": {addr: ts}, "ipv6": {addr: ts} }`. -/
structure PersistedState where
  ipv4 : List (String × String)
  ipv6 : List (String × String)
deriving DecidableEq, Inhabited

/-- `DynDNSUpdater.load_previous_state`.  The state file is modelled as
`none` (file absent), `some none` (file exists but `json.load` raises),
or `some (some st)` (file parses).  The source guards only the
existence check; `open`/`json.load` run outside any `try`, so an
unreadable or malformed existing file raises out of the run. -/
def load_previous_state (file : Option (Option PersistedState)) :
    Except String PersistedState :=
  match file with
  | none => .ok ⟨[], []⟩
  | some none => .error "Expecting value: state file is not valid JSON"
  | some (some st) => .ok st

/-- `DynDNSUpdater.save_state`: both healthy lists stamped with one
timestamp, replacing the previous content wholesale. -/
def save_state (ipv4 ipv6 : List String) (timestamp : String) : PersistedState :=
  ⟨ipv4.map (fun ip => (ip, timestamp)), ipv6.map (fun ip => (ip, timestamp))⟩

/-- The run's change predicate (lines 299-300):
`set(previous.get("ipv4", {}).keys()) != set(healthy_ipv4)` or the same
for IPv6. -/
def hasChanged (prev : PersistedState) (healthy4 healthy6 : List String) : Bool :=
  !setEq (prev.ipv4.map Prod.fst) healthy4 || !setEq (prev.ipv6.map Prod.fst) healthy6

/-- Everything the run gathers from the platform before classifying. -/
structure Gathered where
  gateway_statuses : List (String × GatewayStatus)
  gateway_to_if_map : List (String × String)
  phys_to_pf_if_map : List (String × String)
  ip_to_phys_if_map : List (String × String)
  dyndns_id_map : List (String × String)
  all_ipv4 : List String
  all_ipv6 : List String
  previous_state : PersistedState
deriving DecidableEq, Inhabited

/-- The address→gateway chain of the run's classification loop:
`ip -> physical interface -> pf interface -> gateway name` with
`dict.get` at every step. -/
def addrGateway (g : Gathered) (ip : String) : Option String :=
  (((dget g.ip_to_phys_if_map ip).bind
      (dget g.phys_to_pf_if_map)).bind
      (dget (invertMap g.gateway_to_if_map)))

/-- `gateway_statuses.get(gw_name) == online` for the resolved gateway. -/
def isOnlineFor (g : Gathered) (ip : String) : Bool :=
  decide ((addrGateway g ip).bind (dget g.gateway_statuses) = some GatewayStatus.online)

/-- The healthy filter loop (lines 276-285). -/
def healthyAddrs (g : Gathered) (all : List String) : List String :=
  all.filter (fun ip => isOnlineFor g ip)

/-- `set(all) - set(healthy)` (lines 287-288), as a deduplicated list. -/
def unhealthySet (all healthy : List String) : List String :=
  all.dedup.filter (fun ip => decide (ip ∉ healthy))

/-- The healthy IPv4 list at the decision stage, after the `--ipv6only`
zeroing (line 291). -/
def effHealthy4 (g : Gathered) (ipv6only : Bool) : List String :=
  if ipv6only then [] else healthyAddrs g g.all_ipv4

/-- The healthy IPv6 list at the decision stage, after the `--ipv4only`
zeroing (line 290). -/
def effHealthy6 (g : Gathered) (ipv4only : Bool) : List String :=
  if ipv4only then [] else healthyAddrs g g.all_ipv6

/-- The three maps handed to `update_cache_files`. -/
structure Mappings where
  ip_to_phys : List (String × String)
  phys_to_pf : List (String × String)
  dyndns_ids : List (String × String)
deriving DecidableEq, Inhabited

/-- The per-address resolution chain of `update_cache_files`:
`ip_to_phys_if_map.get(ip)` (skip on `None` or `""`, Python truthiness),
then `phys_to_pf_if_map.get(...)` (same), then `dyndns_id_map.get(...)`
(skip only on `None`). -/
def resolveCacheChain (m : Mappings) (ip : String) : Option (String × String) :=
  match dget m.ip_to_phys ip with
  | none => none
  | some phys =>
    if phys = "" then none
    else
      match dget m.phys_to_pf phys with
      | none => none
      | some pf =>
        if pf = "" then none
        else
          match dget m.dyndns_ids pf with
          | none => none
          | some entryId => some (pf, entryId)

/-- The cache path literal: `/conf/dyndns_`, the pf interface name,
the text `custom`, two apostrophe characters, the entry id, `.cache`. -/
def cachePath (pf entryId : String) : String :=
  "/conf/dyndns_" ++ pf ++ "custom\x27\x27" ++ entryId ++ ".cache"

/-- `PfSensePlatform.update_cache_files` as the list of
`(path, content)` writes it performs, healthy entries first, then
unhealthy ones; content is the bare address for healthy entries and the
address plus `"\n"` for unhealthy ones; addresses whose chain does not
resolve are skipped (`continue`). -/
def update_cache_files (healthy_ipv4 unhealthy_ipv4 healthy_ipv6 unhealthy_ipv6 :
    List String) (m : Mappings) : List (String × String) :=
  ((healthy_ipv4 ++ healthy_ipv6).filterMap (fun ip =>
      (resolveCacheChain m ip).map (fun pi => (cachePath pi.1 pi.2, ip)))) ++
  ((unhealthy_ipv4 ++ unhealthy_ipv6).filterMap (fun ip =>
      (resolveCacheChain m ip).map (fun pi => (cachePath pi.1 pi.2, ip ++ "\n"))))

/-- One record of an rrset body: `{"content": ip, "disabled": False}`. -/
structure DNSRecord where
  content : String
  disabled : Bool
deriving DecidableEq, Inhabited

/-- One rrset of the PATCH body. -/
structure RRSet where
  name : String
  rtype : String
  ttl : Int
  changetype : String
  records : List DNSRecord
deriving DecidableEq, Inhabited

/-- The static configuration the run needs. -/
structure Config where
  record_name : String
  ttl : Int
  allowed_physical_interfaces : List String
deriving DecidableEq, Inhabited

/-- The rrsets built by `DynDNSUpdater.update_dns` (lines 241-244): one
`A` and one `AAAA` full-replace set, always both present. -/
def update_dns_rrsets (cfg : Config) (ipv4 ipv6 : List String) : List RRSet :=
  [⟨cfg.record_name, "A", cfg.ttl, "REPLACE", ipv4.map (fun ip => ⟨ip, false⟩)⟩,
   ⟨cfg.record_name, "AAAA", cfg.ttl, "REPLACE", ipv6.map (fun ip => ⟨ip, false⟩)⟩]

/-- External world of one run, one field per external data source. -/
structure Env where
  thresholdsRaw : Option (List (String × GatewayThresholds))
  dpingerRaw : Option (List (String × Option GatewaySample))
  gatewayIfRaw : Option (List (String × String))
  physToPfRaw : Option (List (String × String))
  dyndnsRaw : Option (List (String × String))
  ifconfigA : Except String (List IfaceBlock)
  ifconfigB : Except String (List IfaceBlock)
  ifconfigC : Except String (List IfaceBlock)
  stateFile : Option (Option PersistedState)
  publishOk : Bool
  timestamp : String

/-- CLI flags consumed by `DynDNSUpdater.run`. -/
structure Args where
  ipv4only : Bool
  ipv6only : Bool
  force_update : Bool
deriving DecidableEq, Inhabited

/-- Observable outcome of one run. -/
structure RunResult where
  healthyV4 : List String
  healthyV6 : List String
  unhealthyV4 : List String
  unhealthyV6 : List String
  publishCall : Option (List RRSet)
  publishSuccess : Bool
  savedState : Option PersistedState
  cacheWrites : List (String × String)
  notification : Option (List String × List String)
deriving DecidableEq, Inhabited

/-- The gathering stage of `DynDNSUpdater.run` (lines 259-272 plus the
state load of line 298), in source order; only the three unguarded
`ifconfig` reads and the state load can fail. -/
def gather (cfg : Config) (env : Env) : Except String Gathered :=
  let thresholds := get_gateway_monitoring_thresholds env.thresholdsRaw
  let gateway_statuses := get_gateway_statuses thresholds env.dpingerRaw
  let gateway_to_if_map := get_gateway_interface_map env.gatewayIfRaw
  let phys_to_pf_if_map := get_physical_to_logical_interface_map env.physToPfRaw
  match get_ip_to_physical_interface_map env.ifconfigC with
  | .error e => .error e
  | .ok ip_to_phys_if_map =>
    let dyndns_id_map := get_dyndns_ids env.dyndnsRaw
    match get_public_ipv4_addresses env.ifconfigA cfg.allowed_physical_interfaces with
    | .error e => .error e
    | .ok all_ipv4 =>
      match get_public_ipv6_addresses env.ifconfigB cfg.allowed_physical_interfaces with
      | .error e => .error e
      | .ok all_ipv6 =>
        match load_previous_state env.stateFile with
        | .error e => .error e
        | .ok previous_state =>
          .ok ⟨gateway_statuses, gateway_to_if_map, phys_to_pf_if_map,
               ip_to_phys_if_map, dyndns_id_map, all_ipv4, all_ipv6, previous_state⟩

/-- Classification, decision and effects of `DynDNSUpdater.run`
(lines 275-316): filter healthy addresses, apply the family-only flags,
compare against the persisted key sets, and on a decided update attempt
the publish; only a successful publish saves state, writes caches and
notifies. -/
def reconcile (cfg : Config) (g : Gathered) (args : Args) (publishOk : Bool)
    (ts : String) : RunResult :=
  let healthy_ipv4 := effHealthy4 g args.ipv6only
  let healthy_ipv6 := effHealthy6 g args.ipv4only
  let unhealthy_ipv4 :=
    if args.ipv6only then [] else unhealthySet g.all_ipv4 (healthyAddrs g g.all_ipv4)
  let unhealthy_ipv6 :=
    if args.ipv4only then [] else unhealthySet g.all_ipv6 (healthyAddrs g g.all_ipv6)
  if args.force_update || hasChanged g.previous_state healthy_ipv4 healthy_ipv6 then
    if publishOk then
      { healthyV4 := healthy_ipv4, healthyV6 := healthy_ipv6,
        unhealthyV4 := unhealthy_ipv4, unhealthyV6 := unhealthy_ipv6,
        publishCall := some (update_dns_rrsets cfg healthy_ipv4 healthy_ipv6),
        publishSuccess := true,
        savedState := some (save_state healthy_ipv4 healthy_ipv6 ts),
        cacheWrites := update_cache_files healthy_ipv4 unhealthy_ipv4
          healthy_ipv6 unhealthy_ipv6
          ⟨g.ip_to_phys_if_map, g.phys_to_pf_if_map, g.dyndns_id_map⟩,
        notification := some (healthy_ipv4, healthy_ipv6) }
    else
      { healthyV4 := healthy_ipv4, healthyV6 := healthy_ipv6,
        unhealthyV4 := unhealthy_ipv4, unhealthyV6 := unhealthy_ipv6,
        publishCall := some (update_dns_rrsets cfg healthy_ipv4 healthy_ipv6),
        publishSuccess := false,
        savedState := none, cacheWrites := [], notification := none }
  else
    { healthyV4 := healthy_ipv4, healthyV6 := healthy_ipv6,
      unhealthyV4 := unhealthy_ipv4, unhealthyV6 := unhealthy_ipv6,
      publishCall := none, publishSuccess := false,
      savedState := none, cacheWrites := [], notification := none }

/-- `DynDNSUpdater.run`: gather, then classify/decide/act. -/
def run (cfg : Config) (env : Env) (args : Args) : Except String RunResult :=
  match gather cfg env with
  | .error e => .error e
  | .ok g => .ok (reconcile cfg g args env.publishOk env.timestamp)

/-! Watcher (`gateway_watcher.py`). -/

/-- One `<dyndns>` entry as `is_ipv6_configured` inspects it: whether an
`<enable>` element is present and the `type` text. -/
structure DynCfgEntry where
  enabled : Bool
  type : String
deriving DecidableEq, Inhabited

/-- Python `pat in s` (substring containment), at character level. -/
def hasSub (pat : List Char) : List Char → Bool
  | [] => pat.isEmpty
  | c :: cs => pat.isPrefixOf (c :: cs) || hasSub pat cs

/-- Python `s.lower()`, at character level. -/
def lowerStr (s : String) : String :=
  String.mk (s.data.map Char.toLower)

/-- Python `"-v6" in s`. -/
def hasV6Marker (s : String) : Bool :=
  hasSub "-v6".data s.data

/-- `is_ipv6_configured`: any enabled entry whose lowercased `type`
contains `"-v6"`; a failing `config.xml` parse (`raw = none`)
conservatively returns `True`. -/
def is_ipv6_configured (raw : Option (List DynCfgEntry)) : Bool :=
  match raw with
  | none => true
  | some entries => entries.any (fun d => d.enabled && hasV6Marker (lowerStr d.type))

/-- The command list built by `run_updater`: forced run with a reason,
plus `--ipv4only` when no IPv6 DynDNS configuration is detected. -/
def run_updater_cmd (dynRaw : Option (List DynCfgEntry)) : List String :=
  ["/usr/local/bin/python3.11", "/root/pdns_dyndns.py",
   "--force-update", "--reason=Gateway-Event"] ++
    (if is_ipv6_configured dynRaw then [] else ["--ipv4only"])

/-- Python dict equality on status mappings: same keys with the same
looked-up value on both sides. -/
def dictEqStatuses (a b : List (String × GatewayStatus)) : Bool :=
  a.all (fun p => decide (dget b p.1 = some p.2)) &&
    b.all (fun p => decide (dget a p.1 = some p.2))

/-- One iteration of the `watch_for_changes` loop body (lines 142-147):
trigger the updater iff the fresh mapping is non-empty (`if
current_statuses`) and differs from the previous one; only then is the
remembered mapping replaced. -/
def watch_tick (prev current : List (String × GatewayStatus))
    (dynRaw : Option (List DynCfgEntry)) :
    Option (List String) × List (String × GatewayStatus) :=
  if !current.isEmpty && !dictEqStatuses current prev then
    (some (run_updater_cmd dynRaw), current)
  else
    (none, prev)

end MwanDdns

open MwanDdns

/-! Concrete fixtures used to witness the hypothesis-bearing results. -/

/-- A concrete static configuration. -/
def cfgW : Config := ⟨"home.example.org.", 60, ["em0"]⟩

/-- One interface carrying a public IPv4 and a public IPv6 address. -/
def blocksW : List IfaceBlock := [⟨"em0", ["203.0.113.5"], ["2001:db8::5"]⟩]

/-- A run invoked with no flags. -/
def argsPlain : Args := ⟨false, false, false⟩

/-- Baseline healthy environment: one gateway `WAN_GW` on `wan`/`em0`,
probed at 100 ms latency and zero loss, no prior state file. -/
def envBase : Env :=
  { thresholdsRaw := some [("WAN_GW", ⟨500, 20⟩)],
    dpingerRaw := some [("WAN_GW", some ⟨100000, 0⟩)],
    gatewayIfRaw := some [("WAN_GW", "wan")],
    physToPfRaw := some [("em0", "wan")],
    dyndnsRaw := some [("wan", "0")],
    ifconfigA := .ok blocksW, ifconfigB := .ok blocksW, ifconfigC := .ok blocksW,
    stateFile := none, publishOk := true, timestamp := "t1" }

/-- Baseline environment with a failing remote publish. -/
def envPubFail : Env := { envBase with publishOk := false }

/-- Prior state matching exactly the discovered healthy addresses. -/
def stSame : PersistedState := ⟨[("203.0.113.5", "t0")], [("2001:db8::5", "t0")]⟩

/-- Baseline environment whose persisted state equals the current
healthy sets. -/
def envNoChange : Env := { envBase with stateFile := some (some stSame) }

/-- Baseline environment whose first `ifconfig` read (public IPv4
discovery) fails. -/
def envIfcFailA : Env := { envBase with ifconfigA := .error "ifconfig: subprocess failed" }

/-- Baseline environment whose address-to-interface `ifconfig` read
fails. -/
def envIfcFailC : Env := { envBase with ifconfigC := .error "ifconfig: subprocess failed" }

/-- A forced IPv4-only invocation. -/
def argsV4Force : Args := ⟨true, false, true⟩

/-- Project a known-successful run result out of `Except`. -/
def exOk (e : Except String RunResult) : RunResult :=
  match e with
  | .ok r => r
  | .error _ => default

/-- Project a known-successful gather result out of `Except`. -/
def gOk (e : Except String Gathered) : Gathered :=
  match e with
  | .ok g => g
  | .error _ => default

/-- Gathered data with one discovered IPv4 address and no topology at
all, so its gateway chain resolves to nothing. -/
def gNoTopo : Gathered := ⟨[], [], [], [], [], ["198.51.100.7"], [], ⟨[], []⟩⟩

/-- Cache maps resolving `1.2.3.4` through `em0`/`wan` to entry id `0`. -/
def mW : Mappings := ⟨[("1.2.3.4", "em0")], [("em0", "wan")], [("wan", "0")]⟩

/-! Helper lemmas shared by several results. -/

/-- The Python float comparison `latency_us / 1000 < latency_high_ms`
in exact rational arithmetic equals the integer comparison used in the
classifier definitions. -/
theorem latency_div_1000_lt_iff (a b : Int) :
    (a : ℚ) / 1000 < (b : ℚ) ↔ a < 1000 * b := by
  rw [div_lt_iff₀ (by norm_num : (0 : ℚ) < 1000)]
  have hc : ((b : ℚ) * 1000) = ((1000 * b : Int) : ℚ) := by push_cast; ring
  rw [hc]
  exact_mod_cast Iff.rfl

/-- C1, counterexample: at thresholds `{latencyhigh 500, losshigh 20}` and
sample `{latencyUs 100000, lossPct 5}` both threshold comparisons of the
claim hold strictly (100 ms < 500 ms and 5 % < 20 %), yet the
reconciler's classifier returns `down`, because it additionally requires
the sampled loss to be exactly 0. -/
theorem c1_threshold_only_counterexample :
    pfsenseClassify ⟨500, 20⟩ ⟨100000, 5⟩ = GatewayStatus.down ∧
      ((100000 : ℚ) / 1000 < (500 : ℚ) ∧ (5 : Int) < (20 : Int)) := by
  refine ⟨by decide, by norm_num, by norm_num⟩

/-- C1, amended: the watcher's classifier returns `online` iff
`latencyUs / 1000 < latencyhigh` and `lossPct < losshigh` (strict bounds);
the reconciler's classifier returns `online` iff additionally the sampled
loss is exactly 0. -/
theorem c1_classifier_amended (thr : GatewayThresholds) (s : GatewaySample) :
    (watcherClassify thr s = GatewayStatus.online ↔
      ((s.latencyUs : ℚ) / 1000 < (thr.latencyhigh : ℚ) ∧ s.lossPct < thr.losshigh)) ∧
    (pfsenseClassify thr s = GatewayStatus.online ↔
      (s.lossPct = 0 ∧
        ((s.latencyUs : ℚ) / 1000 < (thr.latencyhigh : ℚ) ∧ s.lossPct < thr.losshigh))) := by
  have hb := latency_div_1000_lt_iff s.latencyUs thr.latencyhigh
  constructor
  · unfold watcherClassify
    split
    · rename_i h
      simp only [true_iff]
      exact ⟨hb.mpr h.1, h.2⟩
    · rename_i h
      have hn : ¬ ((s.latencyUs : ℚ) / 1000 < (thr.latencyhigh : ℚ) ∧
          s.lossPct < thr.losshigh) := fun hc => h ⟨hb.mp hc.1, hc.2⟩
      simp [hn]
  · unfold pfsenseClassify
    split
    · rename_i h
      simp only [true_iff]
      exact ⟨h.1, hb.mpr h.2.1, h.2.2⟩
    · rename_i h
      have hn : ¬ (s.lossPct = 0 ∧ ((s.latencyUs : ℚ) / 1000 < (thr.latencyhigh : ℚ) ∧
          s.lossPct < thr.losshigh)) := fun hc => h ⟨hc.1, hb.mp hc.2.1, hc.2.2⟩
      simp [hn]


/-- `setEq` decides equality of the underlying finite sets. -/
theorem setEq_true_iff (a b : List String) :
    setEq a b = true ↔ a.toFinset = b.toFinset := by
  simp only [setEq, Bool.and_eq_true, decide_eq_true_eq]
  constructor
  · rintro ⟨h1, h2⟩
    ext x
    simp only [List.mem_toFinset]
    exact ⟨fun hx => h1 x hx, fun hx => h2 x hx⟩
  · intro h
    constructor <;> intro x hx
    · have hm := List.mem_toFinset.mpr hx
      rw [h] at hm
      exact List.mem_toFinset.mp hm
    · have hm := List.mem_toFinset.mpr hx
      rw [← h] at hm
      exact List.mem_toFinset.mp hm

/-- Membership in the set difference `set(all) - set(healthy)`. -/
theorem mem_unhealthySet {all healthy : List String} {x : String} :
    x ∈ unhealthySet all healthy ↔ x ∈ all ∧ x ∉ healthy := by
  simp [unhealthySet, List.mem_filter, List.mem_dedup]

/-- Membership in the healthy filter. -/
theorem mem_healthyAddrs {g : Gathered} {all : List String} {x : String} :
    x ∈ healthyAddrs g all ↔ x ∈ all ∧ isOnlineFor g x = true := by
  simp [healthyAddrs, List.mem_filter]

/-- Filtering one unresolvable address out of the input list leaves a
`filterMap` unchanged. -/
theorem filterMap_filter_ne (l : List String)
    (f : String → Option (String × String)) (ip : String) (hf : f ip = none) :
    (l.filter (fun a => a != ip)).filterMap f = l.filterMap f := by
  induction l with
  | nil => rfl
  | cons x xs ih =>
    by_cases hx : x = ip
    · subst hx
      simp only [List.filter_cons, bne_self_eq_false, Bool.false_eq_true, if_false,
        List.filterMap_cons, hf, ih]
    · have hb : (x != ip) = true := by simp [bne, hx]
      simp only [List.filter_cons, hb, if_true, List.filterMap_cons, ih]

/-- C3: the change predicate is false iff the persisted IPv4 key set
equals the current healthy IPv4 set and likewise for IPv6; two persisted
states with the same key lists (any timestamps) give the same verdict. -/
theorem c3_change_predicate (prev prev' : PersistedState) (h4 h6 : List String)
    (hk4 : prev'.ipv4.map Prod.fst = prev.ipv4.map Prod.fst)
    (hk6 : prev'.ipv6.map Prod.fst = prev.ipv6.map Prod.fst) :
    (hasChanged prev h4 h6 = false ↔
      ((prev.ipv4.map Prod.fst).toFinset = h4.toFinset ∧
        (prev.ipv6.map Prod.fst).toFinset = h6.toFinset)) ∧
    hasChanged prev' h4 h6 = hasChanged prev h4 h6 := by
  constructor
  · simp only [hasChanged, Bool.or_eq_false_iff, Bool.not_eq_true',
      Bool.not_eq_false']
    rw [setEq_true_iff, setEq_true_iff]
  · simp only [hasChanged, hk4, hk6]

/-- C3 witness: timestamps `t0` and `t1` on the same key give the same
(negative) change verdict, and the verdict matches key-set equality. -/
theorem c3_change_predicate_witness :
    (hasChanged ⟨[("203.0.113.5", "t0")], []⟩ ["203.0.113.5"] [] = false ↔
      (((⟨[("203.0.113.5", "t0")], []⟩ : PersistedState).ipv4.map Prod.fst).toFinset =
          (["203.0.113.5"] : List String).toFinset ∧
        (((⟨[("203.0.113.5", "t0")], []⟩ : PersistedState).ipv6.map Prod.fst).toFinset =
          ([] : List String).toFinset))) ∧
    hasChanged ⟨[("203.0.113.5", "t1")], []⟩ ["203.0.113.5"] [] =
      hasChanged ⟨[("203.0.113.5", "t0")], []⟩ ["203.0.113.5"] [] :=
  c3_change_predicate ⟨[("203.0.113.5", "t0")], []⟩ ⟨[("203.0.113.5", "t1")], []⟩
    ["203.0.113.5"] [] rfl rfl

/-- C4: for any gathered data and discovered list, the healthy and
unhealthy sets partition the discovered set (union is everything,
intersection empty); any discovered address not classified healthy is
unhealthy, in particular any address whose gateway chain resolves to
nothing. -/
theorem c4_partition (g : Gathered) (all : List String) (ip : String)
    (hip : ip ∈ all) :
    (healthyAddrs g all).toFinset ∪
        (unhealthySet all (healthyAddrs g all)).toFinset = all.toFinset ∧
    Disjoint (healthyAddrs g all).toFinset
        (unhealthySet all (healthyAddrs g all)).toFinset ∧
    (ip ∉ healthyAddrs g all → ip ∈ unhealthySet all (healthyAddrs g all)) ∧
    (addrGateway g ip = none → ip ∈ unhealthySet all (healthyAddrs g all)) := by
  refine ⟨?_, ?_, ?_, ?_⟩
  · ext x
    simp only [Finset.mem_union, List.mem_toFinset, mem_unhealthySet, mem_healthyAddrs]
    constructor
    · rintro (⟨hx, _⟩ | ⟨hx, _⟩) <;> exact hx
    · intro hx
      by_cases hh : x ∈ healthyAddrs g all
      · exact Or.inl (mem_healthyAddrs.mp hh)
      · exact Or.inr ⟨hx, fun hc => hh (mem_healthyAddrs.mpr hc)⟩
  · rw [Finset.disjoint_left]
    intro x hx hx'
    exact (List.mem_toFinset.mp hx' |> mem_unhealthySet.mp).2 (List.mem_toFinset.mp hx)
  · intro hh
    exact mem_unhealthySet.mpr ⟨hip, hh⟩
  · intro hgw
    refine mem_unhealthySet.mpr ⟨hip, fun hh => ?_⟩
    have hon := (mem_healthyAddrs.mp hh).2
    rw [isOnlineFor, hgw] at hon
    simp at hon

/-- C6: a healthy address whose cache chain resolves gets a write whose
content is exactly the bare address, an unhealthy one gets exactly the
address plus a trailing newline, and an address whose chain does not
resolve contributes no write at all. -/
theorem c6_cache_marker (m : Mappings)
    (healthy_ipv4 unhealthy_ipv4 healthy_ipv6 unhealthy_ipv6 : List String)
    (ip pf entryId : String) :
    (resolveCacheChain m ip = some (pf, entryId) →
      ((ip ∈ healthy_ipv4 ∨ ip ∈ healthy_ipv6 →
        (cachePath pf entryId, ip) ∈
          update_cache_files healthy_ipv4 unhealthy_ipv4 healthy_ipv6 unhealthy_ipv6 m) ∧
      (ip ∈ unhealthy_ipv4 ∨ ip ∈ unhealthy_ipv6 →
        (cachePath pf entryId, ip ++ "\n") ∈
          update_cache_files healthy_ipv4 unhealthy_ipv4 healthy_ipv6 unhealthy_ipv6 m))) ∧
    (resolveCacheChain m ip = none →
      update_cache_files (healthy_ipv4.filter (fun a => a != ip))
          (unhealthy_ipv4.filter (fun a => a != ip))
          (healthy_ipv6.filter (fun a => a != ip))
          (unhealthy_ipv6.filter (fun a => a != ip)) m =
        update_cache_files healthy_ipv4 unhealthy_ipv4 healthy_ipv6 unhealthy_ipv6 m) := by
  constructor
  · intro hres
    constructor
    · intro hmem
      apply List.mem_append_left
      apply List.mem_filterMap.mpr
      exact ⟨ip, List.mem_append.mpr hmem, by rw [hres]; rfl⟩
    · intro hmem
      apply List.mem_append_right
      apply List.mem_filterMap.mpr
      exact ⟨ip, List.mem_append.mpr hmem, by rw [hres]; rfl⟩
  · intro hres
    unfold update_cache_files
    rw [← List.filter_append, ← List.filter_append,
      filterMap_filter_ne _ _ ip (by rw [hres]; rfl),
      filterMap_filter_ne _ _ ip (by rw [hres]; rfl)]

/-- C2: whenever the remote publish does not report success, the run
persists no state, writes no cache files and sends no notification, so
the baseline for the next run's diff is unchanged. -/
theorem c2_publish_failure (cfg : Config) (env : Env) (args : Args)
    (res : RunResult) (hpub : env.publishOk = false)
    (hrun : run cfg env args = .ok res) :
    res.savedState = none ∧ res.cacheWrites = [] ∧ res.notification = none := by
  unfold run at hrun
  cases hg : gather cfg env with
  | error e =>
    rw [hg] at hrun
    exact absurd hrun (by simp)
  | ok g =>
    rw [hg] at hrun
    simp only [Except.ok.injEq] at hrun
    subst hrun
    rw [hpub]
    simp only [reconcile]
    split_ifs <;> simp_all

/-- C5: with no force flag and an unchanged healthy key-set diff for both
families, the run ends at the decision stage: no publish call, no state
save, no cache writes, no notification. -/
theorem c5_no_change_noop (cfg : Config) (env : Env) (args : Args)
    (g : Gathered) (res : RunResult)
    (hg : gather cfg env = .ok g)
    (hforce : args.force_update = false)
    (hch : hasChanged g.previous_state (effHealthy4 g args.ipv6only)
        (effHealthy6 g args.ipv4only) = false)
    (hrun : run cfg env args = .ok res) :
    res.publishCall = none ∧ res.savedState = none ∧
      res.cacheWrites = [] ∧ res.notification = none := by
  unfold run at hrun
  rw [hg] at hrun
  simp only [Except.ok.injEq] at hrun
  subst hrun
  simp [reconcile, hforce, hch]

/-- Field values of `reconcile` under `--ipv4only`: the IPv6 partitions
are empty and any publish payload is the rrset pair built from the
healthy IPv4 list and the empty IPv6 list. -/
theorem reconcile_ipv4only_fields (cfg : Config) (g : Gathered) (args : Args)
    (pub : Bool) (ts : String) (h4 : args.ipv4only = true) :
    (reconcile cfg g args pub ts).healthyV6 = [] ∧
    (reconcile cfg g args pub ts).unhealthyV6 = [] ∧
    (reconcile cfg g args pub ts).healthyV4 = effHealthy4 g args.ipv6only ∧
    ((reconcile cfg g args pub ts).publishCall = none ∨
      (reconcile cfg g args pub ts).publishCall =
        some (update_dns_rrsets cfg (effHealthy4 g args.ipv6only) [])) := by
  have he6 : effHealthy6 g true = [] := rfl
  simp only [reconcile, h4, he6, if_true]
  split_ifs <;> simp

/-- C9: with `--ipv4only` the run's healthy and unhealthy IPv6 sets are
empty regardless of discovery, and any publish performed still carries
both rrsets — an `A` set with the healthy IPv4 addresses and an `AAAA`
full-replace set whose record list is empty. -/
theorem c9_ipv4only (cfg : Config) (env : Env) (args : Args) (res : RunResult)
    (h4 : args.ipv4only = true)
    (hrun : run cfg env args = .ok res) :
    res.healthyV6 = [] ∧ res.unhealthyV6 = [] ∧
    ∀ p, res.publishCall = some p →
      p = update_dns_rrsets cfg res.healthyV4 [] ∧ p.length = 2 ∧
      ∃ r, r ∈ p ∧ r.rtype = "AAAA" ∧ r.changetype = "REPLACE" ∧ r.records = [] := by
  unfold run at hrun
  cases hg : gather cfg env with
  | error e =>
    rw [hg] at hrun
    exact absurd hrun (by simp)
  | ok g =>
    rw [hg] at hrun
    simp only [Except.ok.injEq] at hrun
    obtain ⟨hh6, hu6, hh4, hpc⟩ :=
      reconcile_ipv4only_fields cfg g args env.publishOk env.timestamp h4
    rw [← hrun]
    refine ⟨hh6, hu6, fun p hp => ?_⟩
    cases hpc with
    | inl hnone =>
      rw [hnone] at hp
      exact absurd hp (by simp)
    | inr hsome =>
      rw [hsome] at hp
      simp only [Option.some.injEq] at hp
      subst hp
      rw [hh4]
      refine ⟨rfl, rfl, ⟨cfg.record_name, "AAAA", cfg.ttl, "REPLACE", []⟩, ?_, rfl, rfl, rfl⟩
      simp [update_dns_rrsets]

/-- C7, counterexample: an existing state file whose contents do not
parse makes the load raise (propagate an error) instead of returning the
empty state. -/
theorem c7_state_load_counterexample :
    load_previous_state (some none) =
      Except.error "Expecting value: state file is not valid JSON" := rfl

/-- C7, amended: the load returns the empty state only when no prior
state file exists; an existing file that parses is returned as-is, and
an existing but unreadable or malformed file raises out of the run. -/
theorem c7_state_load_amended (st : PersistedState) :
    load_previous_state none = Except.ok ⟨[], []⟩ ∧
    load_previous_state (some (some st)) = Except.ok st ∧
    ∃ e, load_previous_state (some none) = Except.error e :=
  ⟨rfl, rfl, "Expecting value: state file is not valid JSON", rfl⟩

/-- C8, counterexample: with every data source healthy except the
public-IPv4 `ifconfig` read, the whole run aborts with that error — the
failing adapter call is not caught inside the gathering code. -/
theorem c8_gathering_counterexample :
    run cfgW envIfcFailA argsPlain = Except.error "ifconfig: subprocess failed" := rfl

/-- C8, amended: the config-derived adapter calls (thresholds, gateway
statuses, gateway/interface/DynDNS-id maps) catch their failures and
degrade to an empty map, but the `ifconfig`-based calls are unguarded:
a failing address-to-interface read aborts the whole run with its
error. -/
theorem c8_gathering_amended (thr : List (String × GatewayThresholds))
    (cfg : Config) (env : Env) (args : Args) (e : String)
    (h : env.ifconfigC = .error e) :
    get_gateway_monitoring_thresholds none = [] ∧
    get_gateway_statuses thr none = [] ∧
    get_gateway_interface_map none = [] ∧
    get_physical_to_logical_interface_map none = [] ∧
    get_dyndns_ids none = [] ∧
    run cfg env args = Except.error e := by
  refine ⟨rfl, rfl, rfl, rfl, rfl, ?_⟩
  unfold run gather
  rw [h]
  rfl

/-- C10: one watcher poll tick triggers the updater iff the fresh status
mapping is non-empty and differs (as a dict) from the previous one; a
triggered command is a forced run and carries `--ipv4only` exactly when
no IPv6 DynDNS configuration is detected; the remembered mapping is
replaced only on a trigger. -/
theorem c10_watch_tick (prev current : List (String × GatewayStatus))
    (dynRaw : Option (List DynCfgEntry)) :
    ((watch_tick prev current dynRaw).1.isSome
        = (!current.isEmpty && !dictEqStatuses current prev)) ∧
    (∀ c, (watch_tick prev current dynRaw).1 = some c →
      "--force-update" ∈ c ∧ ("--ipv4only" ∈ c ↔ is_ipv6_configured dynRaw = false)) ∧
    ((watch_tick prev current dynRaw).2
        = if !current.isEmpty && !dictEqStatuses current prev then current else prev) := by
  cases h : (!current.isEmpty && !dictEqStatuses current prev) with
  | false =>
    have e1 : watch_tick prev current dynRaw = (none, prev) := by
      unfold watch_tick
      rw [h]
      simp
    rw [e1]
    refine ⟨rfl, ?_, by simp⟩
    intro c hc
    exact absurd hc (by simp)
  | true =>
    have e1 : watch_tick prev current dynRaw =
        (some (run_updater_cmd dynRaw), current) := by
      unfold watch_tick
      rw [h]
      simp
    rw [e1]
    refine ⟨rfl, ?_, by simp⟩
    intro c hc
    simp only [Option.some.injEq] at hc
    subst hc
    cases hv6 : is_ipv6_configured dynRaw with
    | false =>
      refine ⟨?_, ?_⟩
      · simp [run_updater_cmd]
      · simp [run_updater_cmd, hv6]
    | true =>
      refine ⟨?_, ?_⟩
      · simp [run_updater_cmd]
      · simp [run_updater_cmd, hv6]

/-- C2 witness: a concrete changed run with a failing publish persists
nothing, writes nothing, notifies nobody. -/
theorem c2_publish_failure_witness :
    (exOk (run cfgW envPubFail argsPlain)).savedState = none ∧
    (exOk (run cfgW envPubFail argsPlain)).cacheWrites = [] ∧
    (exOk (run cfgW envPubFail argsPlain)).notification = none :=
  c2_publish_failure cfgW envPubFail argsPlain
    (exOk (run cfgW envPubFail argsPlain)) rfl rfl

/-- C4 witness: one discovered address with no topology at all lands in
the unhealthy set and the partition covers the discovered set. -/
theorem c4_partition_witness :
    (healthyAddrs gNoTopo ["198.51.100.7"]).toFinset ∪
        (unhealthySet ["198.51.100.7"] (healthyAddrs gNoTopo ["198.51.100.7"])).toFinset =
      (["198.51.100.7"] : List String).toFinset ∧
    Disjoint (healthyAddrs gNoTopo ["198.51.100.7"]).toFinset
        (unhealthySet ["198.51.100.7"] (healthyAddrs gNoTopo ["198.51.100.7"])).toFinset ∧
    "198.51.100.7" ∈ unhealthySet ["198.51.100.7"] (healthyAddrs gNoTopo ["198.51.100.7"]) ∧
    "198.51.100.7" ∈ unhealthySet ["198.51.100.7"] (healthyAddrs gNoTopo ["198.51.100.7"]) := by
  have h := c4_partition gNoTopo ["198.51.100.7"] "198.51.100.7" (by simp)
  exact ⟨h.1, h.2.1, h.2.2.1 (by decide), h.2.2.2 rfl⟩

/-- C5 witness: prior state equal to the current healthy sets and no
force flag produce a run with no side effects. -/
theorem c5_no_change_noop_witness :
    (exOk (run cfgW envNoChange argsPlain)).publishCall = none ∧
    (exOk (run cfgW envNoChange argsPlain)).savedState = none ∧
    (exOk (run cfgW envNoChange argsPlain)).cacheWrites = [] ∧
    (exOk (run cfgW envNoChange argsPlain)).notification = none :=
  c5_no_change_noop cfgW envNoChange argsPlain (gOk (gather cfgW envNoChange))
    (exOk (run cfgW envNoChange argsPlain)) rfl rfl rfl rfl

/-- C6 witness: a healthy address whose chain resolves through
`em0`/`wan` to entry id `0` gets a cache write holding the bare
address. -/
theorem c6_cache_marker_witness :
    (cachePath "wan" "0", "1.2.3.4") ∈ update_cache_files ["1.2.3.4"] [] [] [] mW :=
  ((c6_cache_marker mW ["1.2.3.4"] [] [] [] "1.2.3.4" "wan" "0").1 rfl).1
    (Or.inl (by simp))

/-- C8 witness: the config-derived getters degrade to empty maps, and a
concrete failing address-map read aborts the run with its error. -/
theorem c8_gathering_amended_witness :
    get_gateway_monitoring_thresholds none = [] ∧
    get_gateway_statuses [] none = [] ∧
    get_gateway_interface_map none = [] ∧
    get_physical_to_logical_interface_map none = [] ∧
    get_dyndns_ids none = [] ∧
    run cfgW envIfcFailC argsPlain = Except.error "ifconfig: subprocess failed" :=
  c8_gathering_amended [] cfgW envIfcFailC argsPlain "ifconfig: subprocess failed" rfl

/-- C9 witness: a concrete forced `--ipv4only` run with a discovered
public IPv6 address publishes an empty `AAAA` replace set. -/
theorem c9_ipv4only_witness :
    (exOk (run cfgW envBase argsV4Force)).healthyV6 = [] ∧
    (exOk (run cfgW envBase argsV4Force)).unhealthyV6 = [] ∧
    ((exOk (run cfgW envBase argsV4Force)).publishCall.getD [] =
        update_dns_rrsets cfgW (exOk (run cfgW envBase argsV4Force)).healthyV4 [] ∧
      ((exOk (run cfgW envBase argsV4Force)).publishCall.getD []).length = 2 ∧
      ∃ r, r ∈ (exOk (run cfgW envBase argsV4Force)).publishCall.getD [] ∧
        r.rtype = "AAAA" ∧ r.changetype = "REPLACE" ∧ r.records = []) := by
  have h := c9_ipv4only cfgW envBase argsV4Force
    (exOk (run cfgW envBase argsV4Force)) rfl rfl
  exact ⟨h.1, h.2.1, h.2.2 _ rfl⟩

/-- C10 witness: a first non-empty status mapping differing from an
empty previous one triggers a forced command, and with no IPv6 DynDNS
entries configured the command carries `--ipv4only`. -/
theorem c10_watch_tick_witness :
    "--force-update" ∈ run_updater_cmd (some ([] : List DynCfgEntry)) ∧
      ("--ipv4only" ∈ run_updater_cmd (some ([] : List DynCfgEntry)) ↔
        is_ipv6_configured (some ([] : List DynCfgEntry)) = false) :=
  (c10_watch_tick [] [("WAN_GW", GatewayStatus.online)] (some [])).2.1
    (run_updater_cmd (some [])) rfl
